import Mathlib

/-!
Verification of the `ApiService` module of the blog-frontend repository
(`src/services/apiService.ts`), a browser-side HTTP client facade.

The TypeScript module is shallowly embedded:
* response bodies are modelled as JSON values (`Json`) with JavaScript
  truthiness (`Json.truthy`), since `handleError` branches on
  `if (error.response?.data)`;
* the mutable browser environment (the `localStorage` key `token`,
  `window.location.href`, the network) is an explicit record `AppState`
  threaded through the stateful operations;
* the interceptors become pure functions that also emit an event trace,
  recording the order of their side effects;
* the lazy singleton `getInstance` becomes a function on an explicit
  slot-plus-construction-counter state.
-/

namespace BlogFrontend

/-- JSON values, modelling the untyped `error.response?.data` body that
axios hands to the interceptors. `null` also stands for JavaScript
`undefined` where only truthiness matters. -/
inductive Json where
  | null : Json
  | bool (b : Bool) : Json
  | num (n : Int) : Json
  | str (s : String) : Json
  | arr (elems : List Json) : Json
  | obj (fields : List (String × Json)) : Json

/-- JavaScript truthiness of a JSON value: `null`/`undefined`, `false`,
`0` and `""` are falsy; every array and object is truthy. -/
def Json.truthy : Json → Bool
  | .null => false
  | .bool b => b
  | .num n => n != 0
  | .str s => s != ""
  | .arr _ => true
  | .obj _ => true

/-- First binding of a key in a JSON object field list. -/
def jsonLookup (fields : List (String × Json)) (key : String) : Option Json :=
  match fields with
  | [] => none
  | (k, v) :: rest => if k = key then some v else jsonLookup rest key

/-- One entry of the optional `errors` array of the `ApiError` interface:
an object with string fields `field` and `message`. -/
def isErrorEntry : Json → Bool
  | .obj fields =>
      (match jsonLookup fields "field" with
        | some (.str _) => true
        | _ => false)
      && (match jsonLookup fields "message" with
        | some (.str _) => true
        | _ => false)
  | _ => false

/-- Whether a JSON value matches the `ApiError` interface of the source:
an object with numeric `status`, string `message`, and an optional
`errors` array of `{field, message}` entries. -/
def isApiErrorShape : Json → Bool
  | .obj fields =>
      (match jsonLookup fields "status" with
        | some (.num _) => true
        | _ => false)
      && (match jsonLookup fields "message" with
        | some (.str _) => true
        | _ => false)
      && (match jsonLookup fields "errors" with
        | none => true
        | some (.arr entries) => entries.all isErrorEntry
        | some _ => false)
  | _ => false

/-- The HTTP response attached to an axios error, when one was received:
its status code and its (possibly absent) parsed body. -/
structure AxiosResp where
  status : Nat
  data : Option Json

/-- An axios error object as seen by the response interceptor:
`response` is `none` when no response was received at all
(network failure, timeout, ...). -/
structure AxiosErr where
  response : Option AxiosResp

/-- `error.response?.data`: optional chaining through the response to its
body. Absent response or absent body both yield `none`. -/
def AxiosErr.respData (e : AxiosErr) : Option Json :=
  e.response.bind (·.data)

/-- `error.response?.status` as an optional status code. -/
def AxiosErr.respStatus (e : AxiosErr) : Option Nat :=
  e.response.map (·.status)

/-- The fallback error object built by `handleError`, with the literal
message string of the source (including its misspellings). -/
def fallbackError : Json :=
  .obj [("status", .num 500), ("message", .str "An unexpeceted error has occured")]

/-- `ApiService.handleError`: if `error.response?.data` is truthy, return
it verbatim (the source casts it with `as ApiError`, performing no
validation); otherwise return the fallback object. -/
def handleError (e : AxiosErr) : Json :=
  match e.respData with
  | some d => if d.truthy then d else fallbackError
  | none => fallbackError

/-- One HTTP request as recorded on the wire: method, path, optional JSON
body, and query parameters. -/
structure HttpRequest where
  method : String
  url : String
  body : Option Json
  params : List (String × String)

/-- The mutable browser environment the service touches: the
`localStorage` entry under key `"token"`, the current location, and the
log of network requests issued so far. -/
structure AppState where
  token : Option String
  locationHref : String
  networkLog : List HttpRequest

/-- Observable side effects of the response interceptor's failure branch,
in execution order. -/
inductive Event where
  | removeToken : Event
  | redirect (url : String) : Event
  | normalize : Event
deriving DecidableEq, Repr

/-- The failure branch of the response interceptor: on a 401 response it
removes the stored token and navigates to `/login`, then (in every
failure case) normalizes the error via `handleError` and rejects with the
result. Returns the new state, the trace of side effects in order, and
the rejected value. -/
def responseInterceptorError (s : AppState) (e : AxiosErr) :
    AppState × List Event × Json :=
  if e.respStatus = some 401 then
    ({ s with token := none, locationHref := "/login" },
     [Event.removeToken, Event.redirect "/login", Event.normalize],
     handleError e)
  else
    (s, [Event.normalize], handleError e)

/-- The request interceptor: read `localStorage.getItem('token')`
(`none` models the JavaScript `null` of a missing key) and, if the value
is truthy (a non-empty string), set the `Authorization` header to
`"Bearer " ++ token`; otherwise leave the config untouched. -/
structure RequestConfig where
  authorization : Option String
deriving DecidableEq, Repr

def requestInterceptor (store : Option String) (config : RequestConfig) :
    RequestConfig :=
  match store with
  | some t => if t != "" then { config with authorization := some ("Bearer " ++ t) } else config
  | none => config

/-- An `ApiService` instance, identified by the construction serial that
created it (two separate constructions would yield distinct values). -/
structure ApiServiceInst where
  serial : Nat
deriving DecidableEq, Repr

/-- The static singleton state: the `ApiService.instance` slot plus a
counter of how many times the private constructor has run. -/
structure SingletonState where
  instanceSlot : Option ApiServiceInst
  constructions : Nat
deriving DecidableEq, Repr

/-- `ApiService.getInstance`: if the slot is empty, construct a new
instance (bumping the construction counter) and store it; in every case
return the stored instance. -/
def getInstance (s : SingletonState) : ApiServiceInst × SingletonState :=
  match s.instanceSlot with
  | some inst => (inst, s)
  | none =>
      let inst : ApiServiceInst := ⟨s.constructions⟩
      (inst, { instanceSlot := some inst, constructions := s.constructions + 1 })

/-- A sequence of `n` consecutive `getInstance` calls, returning the
instances in call order and the final singleton state. -/
def runCalls : Nat → SingletonState → List ApiServiceInst × SingletonState
  | 0, s => ([], s)
  | n + 1, s =>
      let (inst, s') := getInstance s
      let (rest, s'') := runCalls n s'
      (inst :: rest, s'')

/-- The singleton state of a fresh process: empty slot, no constructions. -/
def freshSingleton : SingletonState := ⟨none, 0⟩

/-- The `AuthResponse` interface: `{token, expiresIn}`. -/
structure AuthResponse where
  token : String
  expiresIn : Int
deriving DecidableEq, Repr

/-- The `LoginRequest` interface: `{email, password}`. -/
structure LoginRequest where
  email : String
  password : String
deriving DecidableEq, Repr

/-- Serialize a login request as the JSON body posted to the backend. -/
def loginBody (c : LoginRequest) : Json :=
  .obj [("email", .str c.email), ("password", .str c.password)]

/-- `ApiService.login`: POST the credentials to `/auth/login`, store the
returned token under the `token` key, and resolve with the response body.
The backend's successful reply is passed in as `resp`. -/
def login (c : LoginRequest) (resp : AuthResponse) (s : AppState) :
    AuthResponse × AppState :=
  let req : HttpRequest := ⟨"POST", "/auth/login", some (loginBody c), []⟩
  (resp, { s with token := some resp.token, networkLog := s.networkLog ++ [req] })

/-- `ApiService.logout`: remove the `token` key from local storage.
No request is issued and nothing else is touched. -/
def logout (s : AppState) : AppState :=
  { s with token := none }

/-- The `Category` interface. -/
structure Category where
  id : String
  name : String
  postCount : Option Int
deriving DecidableEq, Repr

/-- The `Tag` interface. -/
structure BlogTag where
  id : String
  name : String
  postCount : Option Int
deriving DecidableEq, Repr

/-- The `PostStatus` enum. -/
inductive PostStatus where
  | DRAFT : PostStatus
  | PUBLISHED : PostStatus
deriving DecidableEq, Repr

/-- The inline `author` object of the `Post` interface. -/
structure Author where
  id : String
  name : String
deriving DecidableEq, Repr

/-- The `Post` interface. -/
structure Post where
  id : String
  title : String
  content : String
  author : Option Author
  category : Category
  tags : List BlogTag
  readingTime : Option Int
  createdAt : String
  updatedAt : String
  status : Option PostStatus
deriving DecidableEq, Repr

/-- The optional filter parameters of `getPosts`. -/
structure PostsParams where
  categoryId : Option String
  tagId : Option String
deriving DecidableEq, Repr

/-- Axios query serialization of the `params` object: each defined field,
in declaration order; `undefined` fields are skipped. -/
def paramsToQuery (p : PostsParams) : List (String × String) :=
  (match p.categoryId with
    | some c => [("categoryId", c)]
    | none => []) ++
  (match p.tagId with
    | some t => [("tagId", t)]
    | none => [])

/-- `ApiService.getPosts`: GET `/posts` with the filter params and resolve
with `response.data`, the backend's list of posts, unchanged. The
backend's reply is passed in as `backendPosts`. -/
def getPosts (p : PostsParams) (backendPosts : List Post) (s : AppState) :
    HttpRequest × List Post × AppState :=
  let req : HttpRequest := ⟨"GET", "/posts", none, paramsToQuery p⟩
  (req, backendPosts, { s with networkLog := s.networkLog ++ [req] })

/-- Truthiness of `error.response?.data` — the condition of the branch in
`handleError`. Absent response or absent body count as falsy. -/
def bodyTruthy (e : AxiosErr) : Bool :=
  match e.respData with
  | some d => d.truthy
  | none => false

/-- The string under the `message` key of a JSON object, when there is
one; used to observe the message field of surfaced error values. -/
def jsonMessageString : Json → Option String
  | .obj fields =>
      match jsonLookup fields "message" with
      | some (.str s) => some s
      | _ => none
  | _ => none

/-- The integer under the `status` key of a JSON object, when there is
one; used to observe the status field of surfaced error values. -/
def jsonStatusInt : Json → Option Int
  | .obj fields =>
      match jsonLookup fields "status" with
      | some (.num n) => some n
      | _ => none
  | _ => none

/-! ## Theorems -/

/-- Helper: once the singleton slot is filled, any number of further
`getInstance` calls return the stored instance and leave the state
untouched. -/
theorem runCalls_filled (n : Nat) (inst : ApiServiceInst) (c : Nat) :
    runCalls n ⟨some inst, c⟩ = (List.replicate n inst, ⟨some inst, c⟩) := by
  induction n with
  | zero => rfl
  | succ n ih => simp [runCalls, getInstance, ih, List.replicate]

/-- C1 counterexample: the claim that every failed call whose body does
not match the ApiError shape surfaces exactly
`{status: 500, message: "An unexpected error has occurred"}` is false
twice over. First, a truthy body that does not match the shape (the bare
string `"oops"`) is surfaced verbatim, not replaced by any fallback.
Second, even with no body at all, the message of the surfaced fallback is
the source's literal `"An unexpeceted error has occured"`, not the
claimed spelling. -/
theorem handleError_shape_claim_counterexample :
    isApiErrorShape (Json.str "oops") = false ∧
    handleError ⟨some ⟨400, some (Json.str "oops")⟩⟩ = Json.str "oops" ∧
    (handleError ⟨some ⟨400, some (Json.str "oops")⟩⟩ =
        Json.obj [("status", Json.num 500),
          ("message", Json.str "An unexpected error has occurred")] → False) ∧
    jsonMessageString (handleError ⟨none⟩) = some "An unexpeceted error has occured" ∧
    "An unexpeceted error has occured" ≠ "An unexpected error has occurred" :=
  ⟨rfl, rfl, fun h => Json.noConfusion h, rfl, by decide⟩

/-- C1 (amended): `handleError` surfaces the fallback
`{status: 500, message: "An unexpeceted error has occured"}` exactly when
`error.response?.data` is absent or falsy (no response, no body, `null`,
`false`, `0` or `""`); any truthy body is surfaced verbatim, whether or
not it matches the ApiError shape. -/
theorem handleError_fallback_spec (e : AxiosErr) :
    (bodyTruthy e = false → handleError e = fallbackError) ∧
    (∀ d, e.respData = some d → d.truthy = true → handleError e = d) := by
  constructor
  · intro h
    unfold handleError
    unfold bodyTruthy at h
    cases hd : e.respData with
    | none => rfl
    | some d => rw [hd] at h; simp at h; simp [h]
  · intro d hd ht
    unfold handleError
    rw [hd]
    simp [ht]

/-- Witness for C1 (amended): a no-response failure surfaces the
fallback; a truthy non-ApiError body is surfaced verbatim. -/
theorem handleError_fallback_spec_witness :
    handleError ⟨none⟩ = fallbackError ∧
    handleError ⟨some ⟨400, some (Json.str "oops")⟩⟩ = Json.str "oops" :=
  ⟨(handleError_fallback_spec ⟨none⟩).1 rfl,
   (handleError_fallback_spec ⟨some ⟨400, some (Json.str "oops")⟩⟩).2
     (Json.str "oops") rfl rfl⟩

/-- C2: a failure whose body matches the ApiError shape is surfaced to
the caller verbatim — `handleError` returns exactly that body, with no
field added, removed or altered. -/
theorem handleError_roundtrip_apiError (st : Nat) (d : Json)
    (h : isApiErrorShape d = true) :
    handleError ⟨some ⟨st, some d⟩⟩ = d := by
  cases d with
  | obj fields => simp [handleError, AxiosErr.respData, Json.truthy]
  | null => simp [isApiErrorShape] at h
  | bool b => simp [isApiErrorShape] at h
  | num n => simp [isApiErrorShape] at h
  | str s => simp [isApiErrorShape] at h
  | arr xs => simp [isApiErrorShape] at h

/-- Witness for C2 at a concrete ApiError-shaped body with an `errors`
array. -/
theorem handleError_roundtrip_apiError_witness :
    isApiErrorShape (Json.obj [("status", Json.num 400), ("message", Json.str "Bad request"),
      ("errors", Json.arr [Json.obj [("field", Json.str "title"),
        ("message", Json.str "required")]])]) = true ∧
    handleError ⟨some ⟨400, some (Json.obj [("status", Json.num 400),
      ("message", Json.str "Bad request"),
      ("errors", Json.arr [Json.obj [("field", Json.str "title"),
        ("message", Json.str "required")]])])⟩⟩ =
      Json.obj [("status", Json.num 400), ("message", Json.str "Bad request"),
        ("errors", Json.arr [Json.obj [("field", Json.str "title"),
          ("message", Json.str "required")]])] :=
  ⟨rfl, handleError_roundtrip_apiError 400 _ rfl⟩

/-- C3: on any response with status 401 the interceptor erases the stored
credential and redirects to `/login`; its side-effect trace is exactly
token removal, then one redirect to `/login`, then the single
normalization step, so the redirect fires exactly once and both side
effects precede normalization; the rejected value is `handleError` of the
error. -/
theorem responseInterceptor_401_effects (s : AppState) (e : AxiosErr)
    (h : e.respStatus = some 401) :
    (responseInterceptorError s e).1.token = none ∧
    (responseInterceptorError s e).1.locationHref = "/login" ∧
    (responseInterceptorError s e).2.1 =
      [Event.removeToken, Event.redirect "/login", Event.normalize] ∧
    ((responseInterceptorError s e).2.1.count (Event.redirect "/login") = 1) ∧
    (responseInterceptorError s e).2.2 = handleError e := by
  refine ⟨?_, ?_, ?_, ?_, ?_⟩ <;> simp [responseInterceptorError, h, List.count]

/-- Witness for C3 at a concrete state and a bodiless 401 error. -/
theorem responseInterceptor_401_effects_witness :
    (responseInterceptorError ⟨some "tok", "/posts", []⟩ ⟨some ⟨401, none⟩⟩).1.token = none ∧
    (responseInterceptorError ⟨some "tok", "/posts", []⟩ ⟨some ⟨401, none⟩⟩).1.locationHref = "/login" ∧
    (responseInterceptorError ⟨some "tok", "/posts", []⟩ ⟨some ⟨401, none⟩⟩).2.1 =
      [Event.removeToken, Event.redirect "/login", Event.normalize] ∧
    ((responseInterceptorError ⟨some "tok", "/posts", []⟩ ⟨some ⟨401, none⟩⟩).2.1.count
      (Event.redirect "/login") = 1) ∧
    (responseInterceptorError ⟨some "tok", "/posts", []⟩ ⟨some ⟨401, none⟩⟩).2.2 =
      handleError ⟨some ⟨401, none⟩⟩ :=
  responseInterceptor_401_effects ⟨some "tok", "/posts", []⟩ ⟨some ⟨401, none⟩⟩ rfl

/-- C4: when the credential store holds a non-empty token the request
interceptor sets the Authorization header to `"Bearer "` followed by
exactly that token; when the store is empty the config passes through
unchanged, so no Authorization header is attached. -/
theorem requestInterceptor_bearer (store : Option String) (cfg : RequestConfig) :
    (store = none → requestInterceptor store cfg = cfg) ∧
    (∀ t, store = some t → t ≠ "" →
      (requestInterceptor store cfg).authorization = some ("Bearer " ++ t)) := by
  constructor
  · intro h; subst h; rfl
  · intro t h ht
    subst h
    simp [requestInterceptor, ht]

/-- Witness for C4: a stored token `"tok123"` yields the header
`Bearer tok123`; an empty store leaves a header-less config header-less. -/
theorem requestInterceptor_bearer_witness :
    (requestInterceptor (some "tok123") ⟨none⟩).authorization = some ("Bearer " ++ "tok123") ∧
    requestInterceptor none ⟨none⟩ = ⟨none⟩ :=
  ⟨(requestInterceptor_bearer (some "tok123") ⟨none⟩).2 "tok123" rfl (by decide),
   (requestInterceptor_bearer none ⟨none⟩).1 rfl⟩

/-- C5: `getInstance` is a lazy singleton — starting from the fresh
process state, any sequence of `n + 1` calls returns the one instance
constructed by the first call at every position, and the construction
counter of the final state is exactly 1. -/
theorem getInstance_lazy_singleton (n : Nat) :
    runCalls (n + 1) freshSingleton =
      (List.replicate (n + 1) ⟨0⟩, ⟨some ⟨0⟩, 1⟩) := by
  simp [runCalls, freshSingleton, getInstance, runCalls_filled, List.replicate]

/-- C6: `login` stores exactly the backend's token in the credential
store and resolves to the backend's AuthResponse itself, after posting
the credentials to `/auth/login`. -/
theorem login_stores_token_and_resolves (c : LoginRequest) (resp : AuthResponse) (s : AppState) :
    (login c resp s).1 = resp ∧
    (login c resp s).2.token = some resp.token ∧
    (login c resp s).2.networkLog =
      s.networkLog ++ [⟨"POST", "/auth/login", some (loginBody c), []⟩] ∧
    (login c resp s).2.locationHref = s.locationHref :=
  ⟨rfl, rfl, rfl, rfl⟩

/-- C7: `logout` empties the credential store whatever it held, issues no
network request, and changes nothing else. -/
theorem logout_frame (s : AppState) :
    (logout s).token = none ∧
    (logout s).networkLog = s.networkLog ∧
    (logout s).locationHref = s.locationHref :=
  ⟨rfl, rfl, rfl⟩

/-- C8: `getPosts {categoryId := "c1"}` issues a GET to `/posts` whose
query carries exactly `categoryId=c1`, and resolves to the backend's post
sequence unmodified. -/
theorem getPosts_categoryId_filter (posts : List Post) (s : AppState) :
    getPosts ⟨some "c1", none⟩ posts s =
      (⟨"GET", "/posts", none, [("categoryId", "c1")]⟩, posts,
       { s with networkLog :=
          s.networkLog ++ [⟨"GET", "/posts", none, [("categoryId", "c1")]⟩] }) :=
  rfl

/-- C9: an empty-string credential is treated as absent by the request
interceptor (the JavaScript check `if (token)` is a truthiness test): the
config passes through unchanged, identical to the missing-key case, so no
Authorization header is attached. -/
theorem requestInterceptor_empty_token (cfg : RequestConfig) :
    requestInterceptor (some "") cfg = cfg ∧
    requestInterceptor (some "") cfg = requestInterceptor none cfg :=
  ⟨rfl, rfl⟩

/-- C10: a bodiless 401 still fires both side effects (token erased, one
redirect to `/login`), yet the surfaced error is the fallback with status
500, not 401; and the surfaced value depends only on
`error.response?.data`, never on the status code: two errors with the
same body normalize identically. -/
theorem response401_noBody_status500 (s : AppState) (e₁ e₂ : AxiosErr)
    (h : e₁.respData = e₂.respData) :
    (responseInterceptorError s ⟨some ⟨401, none⟩⟩).1.token = none ∧
    ((responseInterceptorError s ⟨some ⟨401, none⟩⟩).2.1.count (Event.redirect "/login") = 1) ∧
    (responseInterceptorError s ⟨some ⟨401, none⟩⟩).2.2 = fallbackError ∧
    jsonStatusInt (responseInterceptorError s ⟨some ⟨401, none⟩⟩).2.2 = some 500 ∧
    handleError e₁ = handleError e₂ := by
  refine ⟨?_, ?_, ?_, ?_, ?_⟩
  · simp [responseInterceptorError, AxiosErr.respStatus]
  · simp [responseInterceptorError, AxiosErr.respStatus, List.count]
  · simp [responseInterceptorError, AxiosErr.respStatus, handleError, AxiosErr.respData]
  · simp [responseInterceptorError, AxiosErr.respStatus, handleError, AxiosErr.respData,
      jsonStatusInt, fallbackError, jsonLookup]
  · unfold handleError
    rw [h]

/-- Witness for C10 at a concrete state, comparing a bodiless 401 with a
bodiless 503. -/
theorem response401_noBody_status500_witness :
    (responseInterceptorError ⟨some "tok", "/posts", []⟩ ⟨some ⟨401, none⟩⟩).1.token = none ∧
    ((responseInterceptorError ⟨some "tok", "/posts", []⟩ ⟨some ⟨401, none⟩⟩).2.1.count
      (Event.redirect "/login") = 1) ∧
    (responseInterceptorError ⟨some "tok", "/posts", []⟩ ⟨some ⟨401, none⟩⟩).2.2 = fallbackError ∧
    jsonStatusInt (responseInterceptorError ⟨some "tok", "/posts", []⟩
      ⟨some ⟨401, none⟩⟩).2.2 = some 500 ∧
    handleError ⟨some ⟨401, none⟩⟩ = handleError ⟨some ⟨503, none⟩⟩ :=
  response401_noBody_status500 ⟨some "tok", "/posts", []⟩ ⟨some ⟨401, none⟩⟩ ⟨some ⟨503, none⟩⟩ rfl

end BlogFrontend
